import Mathlib

/-!
Verification development for the Student Finance Manager web application.

The application is a client-side expense tracker: a list of expense records
and a per-category budget map, from which several derived metrics are
computed (financial health score, gamification points, naive per-category
spending predictions, budget recommendations, month-over-month deltas, CSV
export).  This file gives a shallow embedding of those computations and
proves or refutes the specified properties about them.

Modelling conventions:
* JavaScript numbers are modelled as exact rationals.  Where a computation
  can produce the IEEE special values NaN or Infinity (an unguarded
  division by zero), the embedding makes that explicit with an Option type
  or a case split, following the IEEE evaluation of the source expression.
* Dates are the ISO YYYY-MM-DD strings produced by the date input; the
  year/month extraction performed by the JavaScript Date object is modelled
  by reading the digit groups of the string.  Months are 0-based, as in
  JavaScript (getMonth). The wall-clock "now" that the components read is
  passed in explicitly as a year/month pair.
* JavaScript objects used as string-keyed maps (the budget map, the
  grouping accumulators) are modelled as insertion-ordered association
  lists with unique keys; Object.values and Object.keys read the list in
  order, and assignment replaces in place or appends.
* String primitives that iterate over UTF-8 positions (trim, toLowerCase,
  startsWith, substring search, Number parsing) are re-implemented over
  the character list so that concrete instances reduce by decide.
-/

namespace StudentFinance

/-! ### Character and string helpers -/

/-- Numeric value of a list of decimal digit characters (most significant
first), as accumulated by a parsing loop. -/
def digitsToNat (cs : List Char) : ℕ :=
  cs.foldl (fun a c => a * 10 + (c.toNat - 48)) 0

/-- Whether the first list is a prefix of the second, over characters. -/
def charsHasPre : List Char → List Char → Bool
  | [], _ => true
  | _ :: _, [] => false
  | a :: as, b :: bs => a = b && charsHasPre as bs

/-- Whether the first list occurs contiguously inside the second
(JavaScript String.prototype.includes). -/
def charsHasSub (needle : List Char) : List Char → Bool
  | [] => needle.isEmpty
  | b :: bs => charsHasPre needle (b :: bs) || charsHasSub needle bs

/-- ASCII lower-casing of one character (JavaScript toLowerCase on the
ASCII range used by the category keywords). -/
def lowerChar (c : Char) : Char :=
  if 'A' ≤ c ∧ c ≤ 'Z' then Char.ofNat (c.toNat + 32) else c

/-- ASCII lower-casing of a string, as a character list. -/
def lowerChars (s : String) : List Char := s.toList.map lowerChar

/-- Leading and trailing whitespace removal (JavaScript String.trim). -/
def trimChars (cs : List Char) : List Char :=
  ((cs.dropWhile Char.isWhitespace).reverse.dropWhile Char.isWhitespace).reverse

/-- JavaScript String.trim as a string-to-string function. -/
def strTrim (s : String) : String := String.mk (trimChars s.toList)

/-- JavaScript String.startsWith. -/
def strStartsWith (s p : String) : Bool := charsHasPre p.toList s.toList

/-! ### Data model

An expense record as created by the form: id, ISO date string, free-text
description, category key, amount. -/

structure Expense where
  id : String
  date : String
  description : String
  category : String
  amount : ℚ

/-- The budget map: category key to monthly limit, an insertion-ordered
object with unique keys. -/
abbrev Budget := List (String × ℚ)

/-- Reading the budget map with the pervasive pattern budget[c] or-else 0:
an absent key and an explicit 0 limit are indistinguishable. -/
def lookup0 (b : Budget) (c : String) : ℚ :=
  ((b.find? (fun p => p.1 = c)).map (·.2)).getD 0

/-- JavaScript object assignment on a copy of the map: replace the value
in place if the key is present, otherwise append the new key at the end. -/
def setKey : Budget → String → ℚ → Budget
  | [], c, v => [(c, v)]
  | p :: rest, c, v => if p.1 = c then (c, v) :: rest else p :: setKey rest c v

/-- Sum of Object.values of the budget map. -/
def totalBudgetOf (b : Budget) : ℚ := (b.map (·.2)).sum

/-- Year of an ISO YYYY-MM-DD date string (new Date(s).getFullYear()). -/
def dateYear (s : String) : ℕ := digitsToNat (s.toList.take 4)

/-- Zero-based month of an ISO YYYY-MM-DD date string
(new Date(s).getMonth()). -/
def dateMonth0 (s : String) : ℕ := digitsToNat ((s.toList.drop 5).take 2) - 1

/-- The expenses whose date falls in the given year and 0-based month:
the filter expDate.getMonth() === m && expDate.getFullYear() === y used by
the health score, gamification and prediction components. -/
def monthlyExpenses (es : List Expense) (y m : ℕ) : List Expense :=
  es.filter (fun e => dateMonth0 e.date = m && dateYear e.date = y)

/-- Total amount spent in the given month. -/
def monthlyTotal (es : List Expense) (y m : ℕ) : ℚ :=
  ((monthlyExpenses es y m).map (·.amount)).sum

/-! ### Financial health score (FinancialHealthScore component)

Four sub-scores over the current month's expenses and the budget map,
combined with weights 0.4 / 0.25 / 0.2 / 0.15 and rounded. -/

/-- Budget adherence sub-score:
totalBudget > 0 ? Math.max(0, 100 - ((totalSpent / totalBudget) * 100 - 100)) : 50.
Note the only clamp is the lower one. -/
def budgetScore (es : List Expense) (b : Budget) (y m : ℕ) : ℚ :=
  if 0 < totalBudgetOf b then
    max 0 (100 - (monthlyTotal es y m / totalBudgetOf b * 100 - 100))
  else 50

/-- Per-day totals of a list of expenses: the values of the dailySpending
accumulator keyed by the raw date string, in first-occurrence order. -/
def dailySpendingValues (es : List Expense) : List ℚ :=
  ((es.map (·.date)).eraseDups).map
    (fun d => ((es.filter (·.date = d)).map (·.amount)).sum)

/-- Mean of the day totals; the source guards this division with a
ternary on the length. -/
def avgDailySpending (vals : List ℚ) : ℚ :=
  if 0 < vals.length then vals.sum / vals.length else 0

/-- Population variance of the day totals; the source guards this
division with a ternary on the length. -/
def varianceOf (vals : List ℚ) : ℚ :=
  if 0 < vals.length then
    (vals.map (fun v => (v - avgDailySpending vals) ^ 2)).sum / vals.length
  else 0

/-- Spending consistency sub-score
Math.max(0, 100 - (Math.sqrt(variance) / avgDailySpending) * 50).
This division is NOT guarded in the source, so the IEEE evaluation is made
explicit: when the mean is 0 and the variance is 0 (in particular whenever
the month has no expenses) the expression is Math.max(0, 100 - (0/0)*50) =
Math.max(0, NaN) = NaN, modelled as none; when the mean is 0 and the
variance is positive it is Math.max(0, 100 - Infinity) = 0; otherwise it
is the finite value of the expression. -/
noncomputable def consistencyScore (vals : List ℚ) : Option ℝ :=
  if avgDailySpending vals = 0 then
    if varianceOf vals = 0 then none
    else some 0
  else
    some (max 0 (100 - Real.sqrt (varianceOf vals) / (avgDailySpending vals : ℝ) * 50))

/-- Category diversification sub-score:
Math.min(100, categoryCount * 16.67) over the current month's categories. -/
def diversificationScore (es : List Expense) (y m : ℕ) : ℚ :=
  min 100 (((((monthlyExpenses es y m).map (·.category)).eraseDups).length : ℚ) * 16.67)

/-- The avgMonthlySpending = totalSpent || 100 fallback feeding the
emergency sub-score. -/
def emergencyBase (es : List Expense) (y m : ℕ) : ℚ :=
  if monthlyTotal es y m = 0 then 100 else monthlyTotal es y m

/-- Emergency readiness sub-score:
totalBudget >= avgMonthlySpending * 0.5 ? 100
: (totalBudget / (avgMonthlySpending * 0.5)) * 100. -/
def emergencyScore (es : List Expense) (b : Budget) (y m : ℕ) : ℚ :=
  if emergencyBase es y m * 0.5 ≤ totalBudgetOf b then 100
  else totalBudgetOf b / (emergencyBase es y m * 0.5) * 100

/-- Composite health score: Math.round of the weighted sum of the four
sub-scores, with weights [0.4, 0.25, 0.2, 0.15].  A NaN consistency
sub-score (see consistencyScore) propagates through the sum and the
rounding, giving NaN, modelled as none.  Mathlib round, like
Math.round, rounds half toward positive infinity. -/
noncomputable def overallScore (es : List Expense) (b : Budget) (y m : ℕ) : Option ℤ :=
  match consistencyScore (dailySpendingValues (monthlyExpenses es y m)) with
  | none => none
  | some c =>
      some (round ((budgetScore es b y m : ℝ) * 0.4 + c * 0.25 +
        (diversificationScore es y m : ℝ) * 0.2 + (emergencyScore es b y m : ℝ) * 0.15))

/-! ### Expense prediction (ExpensePrediction component)

For each category appearing in the expense list, the component builds the
category totals of the trailing 3 calendar months (most recent first),
classifies a trend, applies a multiplier and seasonal adjustments, and
derives a confidence value. -/

/-- Normalization performed by new Date(y, m - i, 1) for a 0-based month m
and an offset i of at most 11: stepping back across a year boundary
decrements the year. -/
def monthMinus (y m i : ℕ) : ℕ × ℕ :=
  if i ≤ m then (y, m - i) else (y - 1, m + 12 - i)

/-- Total spent on a category in a given month
(historicalData month.data[category] or-else 0). -/
def categoryMonthTotal (es : List Expense) (cat : String) (y m : ℕ) : ℚ :=
  (((monthlyExpenses es y m).filter (·.category = cat)).map (·.amount)).sum

/-- The 3-element most-recent-first series of monthly category totals
(months with no spending contribute 0). -/
def monthlySpending (es : List Expense) (cat : String) (y m : ℕ) : List ℚ :=
  (List.range 3).map (fun i => categoryMonthTotal es cat (monthMinus y m i).1 (monthMinus y m i).2)

inductive Trend where
  | increasing
  | decreasing
  | stable
  deriving DecidableEq, Repr

/-- Trend classification: starting from stable, when the series has at
least 2 entries compare the most recent value against the oldest with a
plus or minus 10 percent band. -/
def trendOf (vals : List ℚ) : Trend :=
  if 2 ≤ vals.length then
    if vals.headD 0 > vals.getLastD 0 * 1.1 then .increasing
    else if vals.headD 0 < vals.getLastD 0 * 0.9 then .decreasing
    else .stable
  else .stable

/-- Arithmetic mean of the series (the series always has 3 entries). -/
def avgSpending (vals : List ℚ) : ℚ := vals.sum / vals.length

/-- Multiplier applied to the average by trend. -/
def trendMultiplier : Trend → ℚ
  | .increasing => 1.15
  | .decreasing => 0.85
  | .stable => 1

/-- Confidence before seasonal adjustment: base 70, overwritten on a trend
to 85 (or 80) when monthlySpending.length >= 3, else 70 (or 65).  The
guard is on the length of the series, not on how many months have data. -/
def baseConfidence (vals : List ℚ) : ℕ :=
  match trendOf vals with
  | .increasing => if 3 ≤ vals.length then 85 else 70
  | .decreasing => if 3 ≤ vals.length then 80 else 65
  | .stable => 70

/-- 0-based month of new Date(y, m + 1, 1). -/
def nextMonthOf (m : ℕ) : ℕ := (m + 1) % 12

/-- Seasonal education adjustment: next month September or January. -/
def educationAdjust (cat : String) (nextM : ℕ) (a : ℚ) : ℚ :=
  if cat = "education" ∧ (nextM = 8 ∨ nextM = 0) then a * 1.3 else a

/-- Seasonal entertainment adjustment: next month December or January. -/
def entertainmentAdjust (cat : String) (nextM : ℕ) (a : ℚ) : ℚ :=
  if cat = "entertainment" ∧ (nextM = 11 ∨ nextM = 0) then a * 1.2 else a

/-- Both seasonal multipliers, applied in source order. -/
def seasonalAmount (cat : String) (nextM : ℕ) (a : ℚ) : ℚ :=
  entertainmentAdjust cat nextM (educationAdjust cat nextM a)

/-- Seasonal confidence bump: plus 10 capped at 95, education only. -/
def seasonalConfidence (cat : String) (nextM : ℕ) (c : ℕ) : ℕ :=
  if cat = "education" ∧ (nextM = 8 ∨ nextM = 0) then min (c + 10) 95 else c

/-- Predicted next-month amount for a category:
Math.max(0, seasonally adjusted average times trend multiplier). -/
def predictedAmountOf (es : List Expense) (cat : String) (y m : ℕ) : ℚ :=
  max 0 (seasonalAmount cat (nextMonthOf m)
    (avgSpending (monthlySpending es cat y m) * trendMultiplier (trendOf (monthlySpending es cat y m))))

/-- Final confidence for a category. -/
def confidenceOf (es : List Expense) (cat : String) (y m : ℕ) : ℕ :=
  seasonalConfidence cat (nextMonthOf m) (baseConfidence (monthlySpending es cat y m))

structure Prediction where
  category : String
  predictedAmount : ℚ
  confidence : ℕ
  trend : Trend

/-- The prediction list: one entry per distinct category of the expense
list (first-occurrence order, as [...new Set]), filtered to positive
predicted amounts. -/
def predictionsOf (es : List Expense) (y m : ℕ) : List Prediction :=
  (((es.map (·.category)).eraseDups).map (fun cat =>
    { category := cat
      predictedAmount := predictedAmountOf es cat y m
      confidence := confidenceOf es cat y m
      trend := trendOf (monthlySpending es cat y m) })).filter
    (fun p => 0 < p.predictedAmount)

/-! ### Budget recommendations (ExpensePrediction component) -/

inductive Impact where
  | high
  | medium
  | low
  deriving DecidableEq, Repr

/-- The comparator key impactOrder = \x7b high: 3, medium: 2, low: 1 \x7d. -/
def impactOrder : Impact → ℕ
  | .high => 3
  | .medium => 2
  | .low => 1

structure BudgetRecommendation where
  category : String
  currentBudget : ℚ
  recommendedBudget : ℚ
  impact : Impact

/-- One recommendation per prediction: 20 percent buffer and high impact
when no budget is set, 15 percent buffer and high impact when the
prediction exceeds the budget by more than 10 percent, 10 percent buffer
and medium impact when it is below 80 percent of the budget, otherwise
keep the current budget with low impact. -/
def recommendationFor (b : Budget) (p : Prediction) : BudgetRecommendation :=
  if lookup0 b p.category = 0 then
    ⟨p.category, lookup0 b p.category, p.predictedAmount * 1.2, .high⟩
  else if p.predictedAmount > lookup0 b p.category * 1.1 then
    ⟨p.category, lookup0 b p.category, p.predictedAmount * 1.15, .high⟩
  else if p.predictedAmount < lookup0 b p.category * 0.8 then
    ⟨p.category, lookup0 b p.category, p.predictedAmount * 1.1, .medium⟩
  else
    ⟨p.category, lookup0 b p.category, lookup0 b p.category, .low⟩

/-- The recommendation list, sorted by impact descending with the stable
comparator (a, b) => impactOrder[b.impact] - impactOrder[a.impact]. -/
def budgetRecommendationsOf (preds : List Prediction) (b : Budget) : List BudgetRecommendation :=
  (preds.map (recommendationFor b)).mergeSort
    (fun x y => decide (impactOrder y.impact ≤ impactOrder x.impact))

/-- applyRecommendation: copy the budget map and overwrite the single
recommended category. -/
def applyRecommendation (b : Budget) (rec : BudgetRecommendation) : Budget :=
  setKey b rec.category rec.recommendedBudget

/-- applyAllRecommendations: copy the budget map and overwrite the
category of every high-impact recommendation. -/
def applyAllRecommendations (b : Budget) (recs : List BudgetRecommendation) : Budget :=
  recs.foldl
    (fun nb rec => if rec.impact = Impact.high then setKey nb rec.category rec.recommendedBudget else nb) b

/-! ### Gamification (EnhancedGamification component) -/

structure Achievement where
  id : String
  progress : ℚ
  maxProgress : ℚ
  unlocked : Bool
  points : ℚ

/-- Progress of the two budget-relative achievements:
totalBudget > 0 ? Math.min(100, ((totalBudget - totalSpent) / totalBudget) * 100) : 0. -/
def savingsProgress (es : List Expense) (b : Budget) (y m : ℕ) : ℚ :=
  if 0 < totalBudgetOf b then
    min 100 ((totalBudgetOf b - monthlyTotal es y m) / totalBudgetOf b * 100)
  else 0

/-- The hard-coded achievement catalog of the EnhancedGamification panel,
evaluated against the current expense list, budget map, streak counter
(never incremented by the component, hence 0) and current month. -/
def enhancedAchievements (es : List Expense) (b : Budget) (streak : ℕ) (y m : ℕ) : List Achievement :=
  [ { id := "first-expense", progress := min (es.length : ℚ) 1, maxProgress := 1,
      unlocked := decide (1 ≤ es.length), points := 50 },
    { id := "expense-tracker", progress := min (es.length : ℚ) 10, maxProgress := 10,
      unlocked := decide (10 ≤ es.length), points := 100 },
    { id := "budget-master", progress := savingsProgress es b y m, maxProgress := 100,
      unlocked := decide (0 < totalBudgetOf b ∧ monthlyTotal es y m ≤ totalBudgetOf b),
      points := 200 },
    { id := "category-explorer", progress := min (((es.map (·.category)).eraseDups).length : ℚ) 5,
      maxProgress := 5,
      unlocked := decide (5 ≤ ((es.map (·.category)).eraseDups).length), points := 150 },
    { id := "savings-champion", progress := savingsProgress es b y m, maxProgress := 20,
      unlocked := decide (0 < totalBudgetOf b ∧
        (0.2 : ℚ) ≤ (totalBudgetOf b - monthlyTotal es y m) / totalBudgetOf b),
      points := 300 },
    { id := "voice-user", progress := 0, maxProgress := 5, unlocked := false, points := 100 },
    { id := "consistent-tracker", progress := (streak : ℚ), maxProgress := 7,
      unlocked := decide (7 ≤ streak), points := 250 } ]

/-- Sum of the points of the achievements whose unlock predicate holds:
the value the points effect recomputes on every change. -/
def earnedPoints (es : List Expense) (b : Budget) (streak : ℕ) (y m : ℕ) : ℚ :=
  (((enhancedAchievements es b streak y m).filter (·.unlocked)).map (·.points)).sum

/-- Component state touched by the points effect and the rewards store. -/
structure GamState where
  totalPoints : ℚ
  unlockedRewards : List String

/-- The points effect: setTotalPoints(earnedPoints), overwriting whatever
total was displayed before. -/
def recomputePoints (es : List Expense) (b : Budget) (streak : ℕ) (y m : ℕ) (s : GamState) : GamState :=
  { s with totalPoints := earnedPoints es b streak y m }

/-- The rewards store catalog: id and XP cost. -/
def rewardsCatalog : List (String × ℚ) :=
  [("budget-boost", 500), ("category-unlock", 200), ("premium-insights", 1000),
   ("export-premium", 300)]

/-- The rewards claim handler: when the reward is unlocked (cost at most
the displayed total) and not yet claimed, record the claim and subtract
the cost from the displayed total. -/
def claimReward (s : GamState) (rid : String) : GamState :=
  match rewardsCatalog.find? (fun r => r.1 = rid) with
  | none => s
  | some r =>
      if r.2 ≤ s.totalPoints ∧ s.unlockedRewards.contains rid = false then
        { totalPoints := s.totalPoints - r.2, unlockedRewards := s.unlockedRewards ++ [rid] }
      else s

/-! ### Expense form (ExpenseForm component) -/

structure CustomCategory where
  id : String
  value : String
  label : String
  keywords : List String

/-- The built-in category catalog (display-only emoji and color fields
omitted). -/
def defaultCategories : List CustomCategory :=
  [ { id := "food", value := "food", label := "Food & Dining",
      keywords := ["food", "restaurant", "lunch", "dinner", "breakfast", "coffee", "pizza"] },
    { id := "transport", value := "transport", label := "Transport",
      keywords := ["uber", "taxi", "bus", "train", "gas", "fuel", "metro"] },
    { id := "entertainment", value := "entertainment", label := "Entertainment",
      keywords := ["movie", "game", "netflix", "spotify", "concert", "party"] },
    { id := "bills", value := "bills", label := "Bills & Utilities",
      keywords := ["rent", "electricity", "water", "internet", "phone", "bill"] },
    { id := "education", value := "education", label := "Education",
      keywords := ["book", "course", "tuition", "school", "university", "study"] },
    { id := "others", value := "others", label := "Others", keywords := [] } ]

/-- Keyword auto-categorization: first category one of whose keywords is a
substring of the lower-cased description, fallback "others". -/
def smartCategorize (description : String) (cats : List CustomCategory) : String :=
  match cats.find? (fun cat =>
      cat.keywords.any (fun kw => charsHasSub kw.toList (lowerChars description))) with
  | some cat => cat.value
  | none => "others"

/-- Exponent part of a JavaScript number literal: an optional sign and a
nonempty digit run. -/
def parseExp (cs : List Char) : Option ℤ :=
  match cs with
  | [] => none
  | c :: ds =>
      if c = '-' then
        if ds ≠ [] ∧ ds.all (·.isDigit) then some (-(digitsToNat ds : ℤ)) else none
      else if c = '+' then
        if ds ≠ [] ∧ ds.all (·.isDigit) then some (digitsToNat ds : ℤ) else none
      else if (c :: ds).all (·.isDigit) then some (digitsToNat (c :: ds) : ℤ) else none

/-- Value of integer digits, fraction digits and a decimal exponent. -/
def decValue (ip fp : List Char) (k : ℤ) : ℚ :=
  ((digitsToNat ip : ℚ) + (digitsToNat fp : ℚ) / 10 ^ fp.length) * 10 ^ k

/-- Unsigned decimal literal: digits with an optional point, fraction and
exponent (the grammar of values an HTML number input can hold).  None
models NaN. -/
def parseDec (cs : List Char) : Option ℚ :=
  match cs.dropWhile (·.isDigit) with
  | [] =>
      if (cs.takeWhile (·.isDigit)).isEmpty then none
      else some (decValue (cs.takeWhile (·.isDigit)) [] 0)
  | c :: r2 =>
      if c = '.' then
        if (cs.takeWhile (·.isDigit)).isEmpty ∧ (r2.takeWhile (·.isDigit)).isEmpty then none
        else
          match r2.dropWhile (·.isDigit) with
          | [] => some (decValue (cs.takeWhile (·.isDigit)) (r2.takeWhile (·.isDigit)) 0)
          | e :: r4 =>
              if e = 'e' ∨ e = 'E' then
                (parseExp r4).map (decValue (cs.takeWhile (·.isDigit)) (r2.takeWhile (·.isDigit)))
              else none
      else if c = 'e' ∨ c = 'E' then
        if (cs.takeWhile (·.isDigit)).isEmpty then none
        else (parseExp r2).map (decValue (cs.takeWhile (·.isDigit)) [])
      else none

/-- JavaScript Number(string) on the value space of the amount input:
whitespace is trimmed, the empty string is 0, otherwise an optional sign
followed by a decimal literal; anything else is NaN (none). -/
def jsNumber (s : String) : Option ℚ :=
  match trimChars s.toList with
  | [] => some 0
  | c :: rest =>
      if c = '-' then (parseDec rest).map (fun q => -1 * q)
      else if c = '+' then (parseDec rest).map (fun q => 1 * q)
      else parseDec (c :: rest)

/-- Whether the trimmed amount string carries a leading minus sign. -/
def hasNegSign (s : String) : Bool :=
  (trimChars s.toList).headD '0' = '-'

/-- The form submit handler: reject (toast, no state change) when the
trimmed description is empty, the amount string is empty, or
Number(amount) is NaN; otherwise build the expense record (trimmed
description, selected or auto-detected category, parsed amount) and hand
it to onAddExpense, which prepends it to the expense list. -/
def handleSubmit (description amount category date newId : String)
    (cats : List CustomCategory) (expenses : List Expense) : Option Expense × List Expense :=
  match jsNumber amount with
  | none => (none, expenses)
  | some q =>
      if strTrim description = "" ∨ amount = "" then (none, expenses)
      else
        let e : Expense :=
          { id := newId, date := date, description := strTrim description
            category := if category = "" then smartCategorize description cats else category
            amount := q }
        (some e, e :: expenses)

/-! ### Dashboard month-over-month delta (DashboardStats component) -/

/-- Total of the expenses whose ISO date starts with the given YYYY-MM
month key. -/
def monthKeyTotal (es : List Expense) (key : String) : ℚ :=
  ((es.filter (fun e => strStartsWith e.date key)).map (·.amount)).sum

/-- spendingChange = lastMonthTotal > 0
? ((currentMonthTotal - lastMonthTotal) / lastMonthTotal) * 100 : 0.
The two month keys the component derives from the clock are passed in. -/
def spendingChange (es : List Expense) (currentKey lastKey : String) : ℚ :=
  if 0 < monthKeyTotal es lastKey then
    (monthKeyTotal es currentKey - monthKeyTotal es lastKey) / monthKeyTotal es lastKey * 100
  else 0

/-! ### CSV export (ExportManager component) -/

/-- Two-digit zero-padded rendering of a value below 100. -/
def natPad2 (n : ℕ) : String := if n < 10 then "0" ++ toString n else toString n

/-- Rendering of a non-negative cent count as a decimal string. -/
def fixed2OfNat (n : ℕ) : String := toString (n / 100) ++ "." ++ natPad2 (n % 100)

/-- amount.toFixed(2), idealized as exact half-up rounding of the
rational to cents. -/
def toFixed2 (q : ℚ) : String :=
  if q < 0 then "-" ++ fixed2OfNat (round (-q * 100)).toNat
  else fixed2OfNat (round (q * 100)).toNat

/-- One CSV data row:
[expense.date, quoted description, expense.category, amount.toFixed(2)].join(","). -/
def csvRow (e : Expense) : String :=
  String.intercalate "," [e.date, "\"" ++ e.description ++ "\"", e.category, toFixed2 e.amount]

/-- The exported CSV text: the joined header line followed by one row per
(already filtered) expense, joined with newlines. -/
def csvContent (es : List Expense) : String :=
  String.intercalate "\n"
    (String.intercalate "," ["Date", "Description", "Category", "Amount"] :: es.map csvRow)

/-! ### General helper lemmas -/

lemma monthlyTotal_nonneg (es : List Expense) (y m : ℕ)
    (hE : ∀ e ∈ es, 0 ≤ e.amount) : 0 ≤ monthlyTotal es y m := by
  apply List.sum_nonneg
  intro x hx
  obtain ⟨e, he, rfl⟩ := List.mem_map.mp hx
  exact hE e (List.mem_of_mem_filter he)

lemma totalBudgetOf_nonneg (b : Budget) (hB : ∀ p ∈ b, 0 ≤ p.2) :
    0 ≤ totalBudgetOf b := by
  apply List.sum_nonneg
  intro x hx
  obtain ⟨p, hp, rfl⟩ := List.mem_map.mp hx
  exact hB p hp

lemma dailySpendingValues_nonneg (es : List Expense)
    (hE : ∀ e ∈ es, 0 ≤ e.amount) :
    ∀ v ∈ dailySpendingValues es, 0 ≤ v := by
  intro v hv
  obtain ⟨d, _, rfl⟩ := List.mem_map.mp hv
  apply List.sum_nonneg
  intro x hx
  obtain ⟨e, he, rfl⟩ := List.mem_map.mp hx
  exact hE e (List.mem_of_mem_filter he)

lemma avgDailySpending_nonneg (vals : List ℚ) (h : ∀ v ∈ vals, 0 ≤ v) :
    0 ≤ avgDailySpending vals := by
  unfold avgDailySpending
  split
  · exact div_nonneg (List.sum_nonneg h) (by positivity)
  · exact le_refl 0

lemma varianceOf_nonneg (vals : List ℚ) : 0 ≤ varianceOf vals := by
  unfold varianceOf
  split
  · refine div_nonneg (List.sum_nonneg ?_) (by positivity)
    intro x hx
    obtain ⟨v, _, rfl⟩ := List.mem_map.mp hx
    positivity
  · exact le_refl 0

/-! ### Claim C1: health sub-score and composite ranges -/

/-- Concrete input refuting C1: one 10-dollar expense this month against
a 100-dollar total budget. -/
def C1ex : List Expense :=
  [{ id := "1", date := "2025-01-05", description := "lunch", category := "food", amount := 10 }]

def C1bud : Budget := [("food", 100)]

lemma C1ex_monthly : monthlyExpenses C1ex 2025 0 = C1ex := rfl

lemma C1ex_total : monthlyTotal C1ex 2025 0 = 10 := by
  simp only [monthlyTotal, C1ex_monthly]
  norm_num [C1ex]

lemma C1bud_total : totalBudgetOf C1bud = 100 := by
  simp only [totalBudgetOf, C1bud]
  norm_num

lemma C1ex_budgetScore : budgetScore C1ex C1bud 2025 0 = 190 := by
  simp only [budgetScore, C1ex_total, C1bud_total]
  norm_num [max_def]

lemma C1ex_daily : dailySpendingValues C1ex = [10] := by
  simp only [dailySpendingValues, C1ex]
  norm_num [List.eraseDups, List.eraseDups.loop]

lemma C1ex_div : diversificationScore C1ex 2025 0 = 1667 / 100 := by
  simp only [diversificationScore, C1ex_monthly, C1ex]
  norm_num [List.eraseDups, List.eraseDups.loop, min_def]

lemma C1ex_emerg : emergencyScore C1ex C1bud 2025 0 = 100 := by
  simp only [emergencyScore, emergencyBase, C1ex_total, C1bud_total]
  norm_num

lemma C1ex_cons : consistencyScore [10] = some 100 := by
  simp only [consistencyScore, avgDailySpending, varianceOf]
  norm_num [max_def]

lemma C1ex_overall : overallScore C1ex C1bud 2025 0 = some 119 := by
  simp only [overallScore, C1ex_monthly, C1ex_daily, C1ex_cons, C1ex_budgetScore, C1ex_div,
    C1ex_emerg]
  norm_num [round_eq]

/-- Claim C1 is false as stated: with a single 10-dollar expense this
month and a 100-dollar budget, the budget-adherence sub-score is 190
(the formula has no upper clamp), and the composite score is 119, both
outside [0, 100]. -/
theorem health_subscore_range_counterexample :
    budgetScore C1ex C1bud 2025 0 = 190 ∧ ¬ budgetScore C1ex C1bud 2025 0 ≤ 100 ∧
    overallScore C1ex C1bud 2025 0 = some 119 ∧ ¬ (119 : ℤ) ≤ 100 := by
  refine ⟨C1ex_budgetScore, ?_, C1ex_overall, by norm_num⟩
  rw [C1ex_budgetScore]
  norm_num

/-- Claim C1 as amended: with non-negative amounts and limits, the
consistency (when it is a number), diversification and emergency
sub-scores lie in [0, 100], but the budget-adherence sub-score is only
clamped below and ranges over [0, 200]; the composite is the weighted sum
rounded to nearest and lies in [0, 140] whenever it is a number. -/
theorem health_subscore_range_amended (es : List Expense) (b : Budget) (y m : ℕ)
    (hE : ∀ e ∈ es, 0 ≤ e.amount) (hB : ∀ p ∈ b, 0 ≤ p.2) :
    (0 ≤ budgetScore es b y m ∧ budgetScore es b y m ≤ 200) ∧
    (0 ≤ diversificationScore es y m ∧ diversificationScore es y m ≤ 100) ∧
    (0 ≤ emergencyScore es b y m ∧ emergencyScore es b y m ≤ 100) ∧
    (∀ c : ℝ, consistencyScore (dailySpendingValues (monthlyExpenses es y m)) = some c →
      0 ≤ c ∧ c ≤ 100) ∧
    (∀ c : ℝ, consistencyScore (dailySpendingValues (monthlyExpenses es y m)) = some c →
      overallScore es b y m =
        some (round ((budgetScore es b y m : ℝ) * 0.4 + c * 0.25 +
          (diversificationScore es y m : ℝ) * 0.2 + (emergencyScore es b y m : ℝ) * 0.15))) ∧
    (∀ n : ℤ, overallScore es b y m = some n → 0 ≤ n ∧ n ≤ 140) := by
  have hts := monthlyTotal_nonneg es y m hE
  have htb := totalBudgetOf_nonneg b hB
  have hbudget : 0 ≤ budgetScore es b y m ∧ budgetScore es b y m ≤ 200 := by
    unfold budgetScore
    split
    · constructor
      · exact le_max_left 0 _
      · apply max_le (by norm_num)
        have h1 : 0 ≤ monthlyTotal es y m / totalBudgetOf b := div_nonneg hts htb
        nlinarith
    · norm_num
  have hdiv : 0 ≤ diversificationScore es y m ∧ diversificationScore es y m ≤ 100 := by
    unfold diversificationScore
    constructor
    · exact le_min (by norm_num) (by positivity)
    · exact min_le_left _ _
  have hemerg : 0 ≤ emergencyScore es b y m ∧ emergencyScore es b y m ≤ 100 := by
    have hbase : 0 < emergencyBase es y m := by
      unfold emergencyBase
      split
      · norm_num
      · rename_i h
        exact lt_of_le_of_ne hts (Ne.symm h)
    unfold emergencyScore
    split
    · norm_num
    · rename_i h
      push_neg at h
      have hden : 0 < emergencyBase es y m * 0.5 := by positivity
      constructor
      · positivity
      · have h2 : totalBudgetOf b / (emergencyBase es y m * 0.5) < 1 :=
          (div_lt_one hden).mpr h
        nlinarith
  have hconsv : ∀ c : ℝ, consistencyScore (dailySpendingValues (monthlyExpenses es y m)) = some c →
      0 ≤ c ∧ c ≤ 100 := by
    intro c hc
    have hvals : ∀ v ∈ dailySpendingValues (monthlyExpenses es y m), 0 ≤ v := by
      apply dailySpendingValues_nonneg
      intro e he
      exact hE e (List.mem_of_mem_filter he)
    unfold consistencyScore at hc
    by_cases h1 : avgDailySpending (dailySpendingValues (monthlyExpenses es y m)) = 0
    · rw [if_pos h1] at hc
      by_cases h2 : varianceOf (dailySpendingValues (monthlyExpenses es y m)) = 0
      · rw [if_pos h2] at hc
        exact absurd hc (by simp)
      · rw [if_neg h2] at hc
        obtain rfl : (0 : ℝ) = c := Option.some_inj.mp hc
        norm_num
    · rw [if_neg h1] at hc
      obtain rfl := Option.some_inj.mp hc
      have havg : 0 < avgDailySpending (dailySpendingValues (monthlyExpenses es y m)) :=
        lt_of_le_of_ne (avgDailySpending_nonneg _ hvals) (Ne.symm h1)
      have havgR : (0 : ℝ) < (avgDailySpending (dailySpendingValues (monthlyExpenses es y m)) : ℝ) := by
        exact_mod_cast havg
      have hsq : (0 : ℝ) ≤ Real.sqrt (varianceOf (dailySpendingValues (monthlyExpenses es y m))) :=
        Real.sqrt_nonneg _
      constructor
      · exact le_max_left 0 _
      · apply max_le (by norm_num)
        have hdivnn : (0 : ℝ) ≤ Real.sqrt (varianceOf (dailySpendingValues (monthlyExpenses es y m))) /
            (avgDailySpending (dailySpendingValues (monthlyExpenses es y m)) : ℝ) :=
          div_nonneg hsq havgR.le
        have hterm : (0 : ℝ) ≤ Real.sqrt (varianceOf (dailySpendingValues (monthlyExpenses es y m))) /
            (avgDailySpending (dailySpendingValues (monthlyExpenses es y m)) : ℝ) * 50 :=
          mul_nonneg hdivnn (by norm_num)
        linarith
  refine ⟨hbudget, hdiv, hemerg, hconsv, ?_, ?_⟩
  · intro c hc
    unfold overallScore
    rw [hc]
  · intro n hn
    unfold overallScore at hn
    rcases hcs : consistencyScore (dailySpendingValues (monthlyExpenses es y m)) with _ | c
    · rw [hcs] at hn
      exact absurd hn (by simp)
    · rw [hcs] at hn
      rw [Option.some_inj] at hn
      subst hn
      obtain ⟨hc0, hc100⟩ := hconsv c hcs
      have hb0 : (0 : ℝ) ≤ (budgetScore es b y m : ℝ) := by exact_mod_cast hbudget.1
      have hb200 : (budgetScore es b y m : ℝ) ≤ 200 := by exact_mod_cast hbudget.2
      have hd0 : (0 : ℝ) ≤ (diversificationScore es y m : ℝ) := by exact_mod_cast hdiv.1
      have hd100 : (diversificationScore es y m : ℝ) ≤ 100 := by exact_mod_cast hdiv.2
      have he0 : (0 : ℝ) ≤ (emergencyScore es b y m : ℝ) := by exact_mod_cast hemerg.1
      have he100 : (emergencyScore es b y m : ℝ) ≤ 100 := by exact_mod_cast hemerg.2
      set S : ℝ := (budgetScore es b y m : ℝ) * 0.4 + c * 0.25 +
        (diversificationScore es y m : ℝ) * 0.2 + (emergencyScore es b y m : ℝ) * 0.15 with hS
      have hS0 : 0 ≤ S := by rw [hS]; nlinarith
      have hS140 : S ≤ 140 := by rw [hS]; nlinarith
      constructor
      · rw [round_eq]
        exact Int.floor_nonneg.mpr (by linarith)
      · rw [round_eq]
        calc ⌊S + 1 / 2⌋ ≤ ⌊(281 / 2 : ℝ)⌋ := Int.floor_le_floor (by linarith)
          _ = 140 := by norm_num

/-- Closed instance of the amended C1 theorem at the concrete input. -/
theorem health_subscore_range_amended_witness :
    (0 ≤ budgetScore C1ex C1bud 2025 0 ∧ budgetScore C1ex C1bud 2025 0 ≤ 200) ∧
    (0 ≤ diversificationScore C1ex 2025 0 ∧ diversificationScore C1ex 2025 0 ≤ 100) ∧
    (0 ≤ emergencyScore C1ex C1bud 2025 0 ∧ emergencyScore C1ex C1bud 2025 0 ≤ 100) ∧
    (∀ c : ℝ, consistencyScore (dailySpendingValues (monthlyExpenses C1ex 2025 0)) = some c →
      0 ≤ c ∧ c ≤ 100) ∧
    (∀ c : ℝ, consistencyScore (dailySpendingValues (monthlyExpenses C1ex 2025 0)) = some c →
      overallScore C1ex C1bud 2025 0 =
        some (round ((budgetScore C1ex C1bud 2025 0 : ℝ) * 0.4 + c * 0.25 +
          (diversificationScore C1ex 2025 0 : ℝ) * 0.2 + (emergencyScore C1ex C1bud 2025 0 : ℝ) * 0.15))) ∧
    (∀ n : ℤ, overallScore C1ex C1bud 2025 0 = some n → 0 ≤ n ∧ n ≤ 140) :=
  health_subscore_range_amended C1ex C1bud 2025 0
    (by intro e he; simp only [C1ex, List.mem_singleton] at he; subst he; norm_num)
    (by intro p hp; simp only [C1bud, List.mem_singleton] at hp; subst hp; norm_num)

/-! ### Claim C2: the consistency-score division guard -/

/-- Claim C2 is right about what the spec requires but the code omits the
guard: with no expenses in the current month the day-total list is empty,
the mean and variance are 0, and the sub-score evaluates to
Math.max(0, 100 - (Math.sqrt(0) / 0) * 50) = NaN (modelled as none)
rather than 100; the NaN then propagates into the composite score. -/
theorem consistency_guard_code_bug :
    consistencyScore (dailySpendingValues (monthlyExpenses [] 2025 0)) = none ∧
    consistencyScore (dailySpendingValues (monthlyExpenses [] 2025 0)) ≠ some 100 ∧
    overallScore [] [("food", 100)] 2025 0 = none := by
  have h : consistencyScore (dailySpendingValues (monthlyExpenses [] 2025 0)) = none := by
    simp only [consistencyScore, avgDailySpending, varianceOf, dailySpendingValues,
      monthlyExpenses]
    norm_num [List.eraseDups, List.eraseDups.loop]
  refine ⟨h, by rw [h]; simp, ?_⟩
  simp only [overallScore, h]

/-! ### Claim C3: prediction confidence -/

/-- Concrete input refuting C3: one food expense in the current month and
none in the two months before. -/
def C3ex : List Expense :=
  [{ id := "1", date := "2025-01-05", description := "groceries", category := "food", amount := 100 }]

lemma C3ex_spread : monthlySpending C3ex "food" 2025 0 =
    [categoryMonthTotal C3ex "food" 2025 0, categoryMonthTotal C3ex "food" 2024 11,
     categoryMonthTotal C3ex "food" 2024 10] := rfl

lemma C3ex_m0 : categoryMonthTotal C3ex "food" 2025 0 = 100 := by
  have h : (monthlyExpenses C3ex 2025 0).filter (fun e => e.category = "food") = C3ex := rfl
  simp only [categoryMonthTotal, h]
  norm_num [C3ex]

lemma C3ex_m1 : categoryMonthTotal C3ex "food" 2024 11 = 0 := rfl

lemma C3ex_m2 : categoryMonthTotal C3ex "food" 2024 10 = 0 := rfl

lemma C3ex_series : monthlySpending C3ex "food" 2025 0 = [100, 0, 0] := by
  rw [C3ex_spread, C3ex_m0, C3ex_m1, C3ex_m2]

lemma trend_100_0_0 : trendOf [(100 : ℚ), 0, 0] = .increasing := by
  norm_num [trendOf]

lemma C3ex_conf : confidenceOf C3ex "food" 2025 0 = 85 := by
  simp only [confidenceOf, baseConfidence, C3ex_series, trend_100_0_0, seasonalConfidence,
    nextMonthOf]
  rw [if_neg (by decide)]
  norm_num

/-- Claim C3 is false as stated: the food category has spending data only
in the most recent of the 3 trailing months (the filters for the two
older months are empty), the trend is increasing, and yet the confidence
is 85, not the claimed fallback 70 — the guard compares the length of the
3-element series, which is always 3. -/
theorem confidence_gate_counterexample :
    trendOf (monthlySpending C3ex "food" 2025 0) = .increasing ∧
    (monthlyExpenses C3ex 2024 11).filter (fun e => e.category = "food") = [] ∧
    (monthlyExpenses C3ex 2024 10).filter (fun e => e.category = "food") = [] ∧
    confidenceOf C3ex "food" 2025 0 = 85 ∧ (85 : ℕ) ≠ 70 := by
  refine ⟨?_, rfl, rfl, C3ex_conf, by norm_num⟩
  rw [C3ex_series]
  exact trend_100_0_0

lemma monthlySpending_length (es : List Expense) (cat : String) (y m : ℕ) :
    (monthlySpending es cat y m).length = 3 := by
  simp [monthlySpending]

/-- Claim C3 as amended: before the seasonal adjustment the confidence is
85 for an increasing trend, 80 for a decreasing trend and 70 otherwise,
for every input — the months-with-data condition plays no role, because
the code guards on the series length, which is always 3, so the 70 and 65
fallback values are unreachable. -/
theorem confidence_gate_amended (es : List Expense) (cat : String) (y m : ℕ) :
    baseConfidence (monthlySpending es cat y m) =
      (match trendOf (monthlySpending es cat y m) with
       | .increasing => 85
       | .decreasing => 80
       | .stable => 70) := by
  unfold baseConfidence
  cases trendOf (monthlySpending es cat y m) <;>
    simp [monthlySpending_length]

/-! ### Claim C4: trend classification and predicted amount -/

/-- Concrete input with most-recent-first series [150, 100, 100] for the
food category. -/
def C4ex : List Expense :=
  [{ id := "1", date := "2025-01-10", description := "a", category := "food", amount := 150 },
   { id := "2", date := "2024-12-10", description := "b", category := "food", amount := 100 },
   { id := "3", date := "2024-11-10", description := "c", category := "food", amount := 100 }]

lemma C4ex_m0 : categoryMonthTotal C4ex "food" 2025 0 = 150 := by
  have h : (monthlyExpenses C4ex 2025 0).filter (fun e => e.category = "food") =
      [{ id := "1", date := "2025-01-10", description := "a", category := "food", amount := 150 }] := rfl
  simp only [categoryMonthTotal, h]
  norm_num

lemma C4ex_m1 : categoryMonthTotal C4ex "food" 2024 11 = 100 := by
  have h : (monthlyExpenses C4ex 2024 11).filter (fun e => e.category = "food") =
      [{ id := "2", date := "2024-12-10", description := "b", category := "food", amount := 100 }] := rfl
  simp only [categoryMonthTotal, h]
  norm_num

lemma C4ex_m2 : categoryMonthTotal C4ex "food" 2024 10 = 100 := by
  have h : (monthlyExpenses C4ex 2024 10).filter (fun e => e.category = "food") =
      [{ id := "3", date := "2024-11-10", description := "c", category := "food", amount := 100 }] := rfl
  simp only [categoryMonthTotal, h]
  norm_num

lemma C4ex_series : monthlySpending C4ex "food" 2025 0 = [150, 100, 100] := by
  have h : monthlySpending C4ex "food" 2025 0 =
      [categoryMonthTotal C4ex "food" 2025 0, categoryMonthTotal C4ex "food" 2024 11,
       categoryMonthTotal C4ex "food" 2024 10] := rfl
  rw [h, C4ex_m0, C4ex_m1, C4ex_m2]

lemma trend_150_100_100 : trendOf [(150 : ℚ), 100, 100] = .increasing := by
  norm_num [trendOf]

lemma seasonalAmount_plain (cat : String) (nextM : ℕ) (a : ℚ)
    (h1 : ¬(cat = "education" ∧ (nextM = 8 ∨ nextM = 0)))
    (h2 : ¬(cat = "entertainment" ∧ (nextM = 11 ∨ nextM = 0))) :
    seasonalAmount cat nextM a = a := by
  unfold seasonalAmount entertainmentAdjust educationAdjust
  rw [if_neg h1, if_neg h2]

lemma seasonalAmount_education (cat : String) (nextM : ℕ) (a : ℚ)
    (h1 : cat = "education" ∧ (nextM = 8 ∨ nextM = 0)) :
    seasonalAmount cat nextM a = a * 1.3 := by
  unfold seasonalAmount entertainmentAdjust educationAdjust
  rw [if_pos h1, if_neg (by rintro ⟨h, _⟩; rw [h1.1] at h; exact absurd h (by decide))]

lemma C4ex_pred : predictedAmountOf C4ex "food" 2025 0 = 805 / 6 := by
  simp only [predictedAmountOf, C4ex_series, trend_150_100_100, trendMultiplier, avgSpending,
    nextMonthOf]
  rw [seasonalAmount_plain _ _ _ (by decide) (by decide)]
  norm_num [max_def]

/-- Concrete education input: stable series [100, 100, 100] with the
upcoming month September. -/
def C4edu : List Expense :=
  [{ id := "1", date := "2025-08-10", description := "a", category := "education", amount := 100 },
   { id := "2", date := "2025-07-10", description := "b", category := "education", amount := 100 },
   { id := "3", date := "2025-06-10", description := "c", category := "education", amount := 100 }]

lemma C4edu_series : monthlySpending C4edu "education" 2025 7 = [100, 100, 100] := by
  have h : monthlySpending C4edu "education" 2025 7 =
      [categoryMonthTotal C4edu "education" 2025 7, categoryMonthTotal C4edu "education" 2025 6,
       categoryMonthTotal C4edu "education" 2025 5] := rfl
  have h0 : (monthlyExpenses C4edu 2025 7).filter (fun e => e.category = "education") =
      [{ id := "1", date := "2025-08-10", description := "a", category := "education", amount := 100 }] := rfl
  have h1 : (monthlyExpenses C4edu 2025 6).filter (fun e => e.category = "education") =
      [{ id := "2", date := "2025-07-10", description := "b", category := "education", amount := 100 }] := rfl
  have h2 : (monthlyExpenses C4edu 2025 5).filter (fun e => e.category = "education") =
      [{ id := "3", date := "2025-06-10", description := "c", category := "education", amount := 100 }] := rfl
  rw [h]
  simp only [categoryMonthTotal, h0, h1, h2]
  norm_num

lemma trend_100_100_100 : trendOf [(100 : ℚ), 100, 100] = .stable := by
  norm_num [trendOf]

lemma C4edu_pred : predictedAmountOf C4edu "education" 2025 7 = 130 := by
  simp only [predictedAmountOf, C4edu_series, trend_100_100_100, trendMultiplier, avgSpending,
    nextMonthOf]
  rw [seasonalAmount_education _ _ _ ⟨rfl, by norm_num⟩]
  norm_num [max_def]

/-- Claim C4 is false as stated, in two ways.  First, its own arithmetic:
for the series [150, 100, 100] the code computes avg(150,100,100) * 1.15 =
805/6, about 134.17 — not 143.33 (the difference is more than 9, far
beyond display rounding).  Second, the formula omits the seasonal
override: a stable [100, 100, 100] education series predicted in August
yields 130, not 100. -/
theorem prediction_formula_counterexample :
    trendOf (monthlySpending C4ex "food" 2025 0) = .increasing ∧
    predictedAmountOf C4ex "food" 2025 0 = 805 / 6 ∧
    (805 / 6 : ℚ) ≠ 143.33 ∧ 9 < (143.33 : ℚ) - 805 / 6 ∧
    trendOf (monthlySpending C4edu "education" 2025 7) = .stable ∧
    predictedAmountOf C4edu "education" 2025 7 = 130 ∧ (130 : ℚ) ≠ 100 := by
  refine ⟨?_, C4ex_pred, by norm_num, by norm_num, ?_, C4edu_pred, by norm_num⟩
  · rw [C4ex_series]
    exact trend_150_100_100
  · rw [C4edu_series]
    exact trend_100_100_100

/-- Concrete stable input for a category with no seasonal override. -/
def C4stb : List Expense :=
  [{ id := "1", date := "2025-01-10", description := "a", category := "food", amount := 100 },
   { id := "2", date := "2024-12-10", description := "b", category := "food", amount := 100 },
   { id := "3", date := "2024-11-10", description := "c", category := "food", amount := 100 }]

lemma C4stb_series : monthlySpending C4stb "food" 2025 0 = [100, 100, 100] := by
  have h : monthlySpending C4stb "food" 2025 0 =
      [categoryMonthTotal C4stb "food" 2025 0, categoryMonthTotal C4stb "food" 2024 11,
       categoryMonthTotal C4stb "food" 2024 10] := rfl
  have h0 : (monthlyExpenses C4stb 2025 0).filter (fun e => e.category = "food") =
      [{ id := "1", date := "2025-01-10", description := "a", category := "food", amount := 100 }] := rfl
  have h1 : (monthlyExpenses C4stb 2024 11).filter (fun e => e.category = "food") =
      [{ id := "2", date := "2024-12-10", description := "b", category := "food", amount := 100 }] := rfl
  have h2 : (monthlyExpenses C4stb 2024 10).filter (fun e => e.category = "food") =
      [{ id := "3", date := "2024-11-10", description := "c", category := "food", amount := 100 }] := rfl
  rw [h]
  simp only [categoryMonthTotal, h0, h1, h2]
  norm_num

lemma C4stb_pred : predictedAmountOf C4stb "food" 2025 0 = 100 := by
  simp only [predictedAmountOf, C4stb_series, trend_100_100_100, trendMultiplier, avgSpending,
    nextMonthOf]
  rw [seasonalAmount_plain _ _ _ (by decide) (by decide)]
  norm_num [max_def]

/-- Claim C4 as amended: for every input the 3-month series is [a, b, c]
with the trend increasing iff a > c * 1.1, decreasing iff a < c * 0.9,
else stable, and predictedAmount = max(0, seasonal adjustment of
(a+b+c)/3 times the trend multiplier), where the seasonal adjustment
multiplies by 1.3 (education, next month September or January) or 1.2
(entertainment, next month December or January) and is the identity
otherwise; concretely, [100, 100, 100] for a non-seasonal category gives
stable with predicted 100, and [150, 100, 100] gives increasing with
predicted 805/6, about 134.17. -/
theorem prediction_formula_amended :
    (∀ (es : List Expense) (cat : String) (y m : ℕ),
      ∃ a b c : ℚ, monthlySpending es cat y m = [a, b, c] ∧
        trendOf (monthlySpending es cat y m) =
          (if a > c * 1.1 then Trend.increasing
           else if a < c * 0.9 then Trend.decreasing else Trend.stable) ∧
        predictedAmountOf es cat y m =
          max 0 (seasonalAmount cat ((m + 1) % 12)
            ((a + b + c) / 3 * trendMultiplier (trendOf (monthlySpending es cat y m))))) ∧
    trendOf (monthlySpending C4stb "food" 2025 0) = .stable ∧
    predictedAmountOf C4stb "food" 2025 0 = 100 ∧
    trendOf (monthlySpending C4ex "food" 2025 0) = .increasing ∧
    predictedAmountOf C4ex "food" 2025 0 = 805 / 6 := by
  refine ⟨?_, by rw [C4stb_series]; exact trend_100_100_100, C4stb_pred,
    by rw [C4ex_series]; exact trend_150_100_100, C4ex_pred⟩
  intro es cat y m
  have h : monthlySpending es cat y m =
      [categoryMonthTotal es cat (monthMinus y m 0).1 (monthMinus y m 0).2,
       categoryMonthTotal es cat (monthMinus y m 1).1 (monthMinus y m 1).2,
       categoryMonthTotal es cat (monthMinus y m 2).1 (monthMinus y m 2).2] := rfl
  refine ⟨categoryMonthTotal es cat (monthMinus y m 0).1 (monthMinus y m 0).2,
    categoryMonthTotal es cat (monthMinus y m 1).1 (monthMinus y m 1).2,
    categoryMonthTotal es cat (monthMinus y m 2).1 (monthMinus y m 2).2, h, ?_, ?_⟩
  · rw [h]
    simp [trendOf]
  · simp only [predictedAmountOf, nextMonthOf, avgSpending]
    rw [h]
    norm_num
    congr 2
    ring

/-! ### Claim C5: budget recommendation rules and ordering -/

/-- Claim C5 holds: the four recommendation cases match the code in
order (unset-or-zero budget first), the output list is a permutation of
the per-prediction recommendations sorted with impact non-increasing, and
the concrete example (current budget 0, predicted 50) yields 60 with high
impact. -/
theorem budget_recommendation_spec :
    (∀ (b : Budget) (p : Prediction), lookup0 b p.category = 0 →
      recommendationFor b p =
        { category := p.category, currentBudget := 0,
          recommendedBudget := p.predictedAmount * 1.2, impact := .high }) ∧
    (∀ (b : Budget) (p : Prediction), lookup0 b p.category ≠ 0 →
      p.predictedAmount > lookup0 b p.category * 1.1 →
      recommendationFor b p =
        { category := p.category, currentBudget := lookup0 b p.category,
          recommendedBudget := p.predictedAmount * 1.15, impact := .high }) ∧
    (∀ (b : Budget) (p : Prediction), lookup0 b p.category ≠ 0 →
      ¬ p.predictedAmount > lookup0 b p.category * 1.1 →
      p.predictedAmount < lookup0 b p.category * 0.8 →
      recommendationFor b p =
        { category := p.category, currentBudget := lookup0 b p.category,
          recommendedBudget := p.predictedAmount * 1.1, impact := .medium }) ∧
    (∀ (b : Budget) (p : Prediction), lookup0 b p.category ≠ 0 →
      ¬ p.predictedAmount > lookup0 b p.category * 1.1 →
      ¬ p.predictedAmount < lookup0 b p.category * 0.8 →
      recommendationFor b p =
        { category := p.category, currentBudget := lookup0 b p.category,
          recommendedBudget := lookup0 b p.category, impact := .low }) ∧
    (∀ (preds : List Prediction) (b : Budget),
      (budgetRecommendationsOf preds b).Pairwise
        (fun x y => impactOrder y.impact ≤ impactOrder x.impact)) ∧
    (∀ (preds : List Prediction) (b : Budget),
      (budgetRecommendationsOf preds b).Perm (preds.map (recommendationFor b))) ∧
    recommendationFor []
        { category := "food", predictedAmount := 50, confidence := 70, trend := .stable } =
      { category := "food", currentBudget := 0, recommendedBudget := 60, impact := .high } := by
  refine ⟨?_, ?_, ?_, ?_, ?_, ?_, ?_⟩
  · intro b p h
    rw [recommendationFor, if_pos h, h]
  · intro b p h h1
    rw [recommendationFor, if_neg h, if_pos h1]
  · intro b p h h1 h2
    rw [recommendationFor, if_neg h, if_neg h1, if_pos h2]
  · intro b p h h1 h2
    rw [recommendationFor, if_neg h, if_neg h1, if_neg h2]
  · intro preds b
    have hs := @List.sorted_mergeSort BudgetRecommendation
      (fun x y : BudgetRecommendation => decide (impactOrder y.impact ≤ impactOrder x.impact))
      (by intro a b c hab hbc
          simp only [decide_eq_true_eq] at *
          exact le_trans hbc hab)
      (by intro a b
          simp only [Bool.or_eq_true, decide_eq_true_eq]
          exact Nat.le_total _ _)
      (preds.map (recommendationFor b))
    exact hs.imp (fun h => by simpa using h)
  · intro preds b
    exact List.mergeSort_perm _ _
  · have h : lookup0 [] "food" = 0 := rfl
    rw [recommendationFor]
    norm_num [h, BudgetRecommendation.mk.injEq]

/-- Concrete budget map for the recommendation witness. -/
def C5bud : Budget := [("food", 50)]

/-- Closed instances of the recommendation rules: a prediction of 80
against a 50 budget is the high-impact over-budget case, and the unset
budget example gives 60 with high impact. -/
theorem budget_recommendation_spec_witness :
    lookup0 C5bud "food" = 50 ∧
    recommendationFor C5bud
        { category := "food", predictedAmount := 80, confidence := 70, trend := .stable } =
      { category := "food", currentBudget := lookup0 C5bud "food",
        recommendedBudget := 80 * 1.15, impact := .high } ∧
    recommendationFor []
        { category := "food", predictedAmount := 50, confidence := 70, trend := .stable } =
      { category := "food", currentBudget := 0, recommendedBudget := 60, impact := .high } :=
  ⟨rfl,
   budget_recommendation_spec.2.1 C5bud _
     (by rw [show lookup0 C5bud "food" = 50 from rfl]; norm_num)
     (by rw [show lookup0 C5bud "food" = 50 from rfl]; norm_num),
   budget_recommendation_spec.2.2.2.2.2.2⟩

/-! ### Claim C9: frame properties of the apply actions -/

lemma lookup0_setKey_self (b : Budget) (c : String) (v : ℚ) :
    lookup0 (setKey b c v) c = v := by
  induction b with
  | nil => simp [setKey, lookup0]
  | cons p rest ih =>
      by_cases h : p.1 = c
      · simp [setKey, h, lookup0]
      · simp only [setKey, if_neg h]
        rw [lookup0, List.find?_cons_of_neg _ (by simpa using h)]
        exact ih

lemma lookup0_setKey_ne (b : Budget) (c c' : String) (v : ℚ) (hne : c' ≠ c) :
    lookup0 (setKey b c v) c' = lookup0 b c' := by
  induction b with
  | nil => simp [setKey, lookup0, List.find?_cons_of_neg, Ne.symm hne]
  | cons p rest ih =>
      by_cases h : p.1 = c
      · simp only [setKey, if_pos h]
        rw [lookup0, List.find?_cons_of_neg _ (by simpa using Ne.symm hne)]
        rw [lookup0, List.find?_cons_of_neg _ (by simp [h, Ne.symm hne])]
      · simp only [setKey, if_neg h]
        by_cases h2 : p.1 = c'
        · rw [lookup0, List.find?_cons_of_pos _ (by simpa using h2),
            lookup0, List.find?_cons_of_pos _ (by simpa using h2)]
        · rw [lookup0, List.find?_cons_of_neg _ (by simpa using h2),
            lookup0, List.find?_cons_of_neg _ (by simpa using h2)]
          exact ih

lemma applyAll_frame (b : Budget) (recs : List BudgetRecommendation) (c : String)
    (h : ∀ r ∈ recs, r.impact = Impact.high → r.category ≠ c) :
    lookup0 (applyAllRecommendations b recs) c = lookup0 b c := by
  induction recs generalizing b with
  | nil => rfl
  | cons r rs ih =>
      simp only [applyAllRecommendations, List.foldl_cons]
      by_cases hr : r.impact = Impact.high
      · rw [if_pos hr]
        rw [show (rs.foldl (fun nb rec =>
            if rec.impact = Impact.high then setKey nb rec.category rec.recommendedBudget else nb)
            (setKey b r.category r.recommendedBudget)) =
          applyAllRecommendations (setKey b r.category r.recommendedBudget) rs from rfl]
        rw [ih _ (fun r' hr' himp => h r' (List.mem_cons_of_mem _ hr') himp)]
        exact lookup0_setKey_ne _ _ _ _ (fun hc => h r (List.mem_cons_self _ _) hr hc.symm)
      · rw [if_neg hr]
        exact ih _ (fun r' hr' himp => h r' (List.mem_cons_of_mem _ hr') himp)

lemma applyAll_update (b : Budget) (recs : List BudgetRecommendation)
    (r : BudgetRecommendation) (hnd : (recs.map (·.category)).Nodup)
    (hmem : r ∈ recs) (himp : r.impact = Impact.high) :
    lookup0 (applyAllRecommendations b recs) r.category = r.recommendedBudget := by
  induction recs generalizing b with
  | nil => cases hmem
  | cons q qs ih =>
      simp only [List.map_cons, List.nodup_cons] at hnd
      rcases List.mem_cons.mp hmem with rfl | hmem'
      · simp only [applyAllRecommendations, List.foldl_cons, if_pos himp]
        rw [show (qs.foldl (fun nb rec =>
            if rec.impact = Impact.high then setKey nb rec.category rec.recommendedBudget else nb)
            (setKey b r.category r.recommendedBudget)) =
          applyAllRecommendations (setKey b r.category r.recommendedBudget) qs from rfl]
        rw [applyAll_frame _ _ _ ?_]
        · exact lookup0_setKey_self _ _ _
        · intro r' hr' _
          intro hc
          exact hnd.1 (hc ▸ List.mem_map_of_mem (·.category) hr')
      · simp only [applyAllRecommendations, List.foldl_cons]
        by_cases hq : q.impact = Impact.high
        · rw [if_pos hq]
          exact ih _ hnd.2 hmem'
        · rw [if_neg hq]
          exact ih _ hnd.2 hmem'

/-- Claim C9 holds: applying a single recommendation overwrites that
recommendation's category and no other; bulk-apply leaves every category
that is not the category of a high-impact recommendation unchanged, and
(for the duplicate-free category lists the pipeline produces) sets each
high-impact recommendation's category to its recommended budget. -/
theorem apply_recommendation_frame :
    (∀ (b : Budget) (rec : BudgetRecommendation),
      lookup0 (applyRecommendation b rec) rec.category = rec.recommendedBudget) ∧
    (∀ (b : Budget) (rec : BudgetRecommendation) (c : String), c ≠ rec.category →
      lookup0 (applyRecommendation b rec) c = lookup0 b c) ∧
    (∀ (b : Budget) (recs : List BudgetRecommendation) (c : String),
      (∀ r ∈ recs, r.impact = Impact.high → r.category ≠ c) →
      lookup0 (applyAllRecommendations b recs) c = lookup0 b c) ∧
    (∀ (b : Budget) (recs : List BudgetRecommendation) (r : BudgetRecommendation),
      (recs.map (·.category)).Nodup → r ∈ recs → r.impact = Impact.high →
      lookup0 (applyAllRecommendations b recs) r.category = r.recommendedBudget) := by
  refine ⟨?_, ?_, ?_, ?_⟩
  · intro b rec
    exact lookup0_setKey_self _ _ _
  · intro b rec c hc
    exact lookup0_setKey_ne _ _ _ _ hc
  · intro b recs c h
    exact applyAll_frame b recs c h
  · intro b recs r hnd hmem himp
    exact applyAll_update b recs r hnd hmem himp

/-- Concrete inputs for the frame witness. -/
def C9bud : Budget := [("food", 100), ("transport", 70)]

def C9recHigh : BudgetRecommendation :=
  { category := "food", currentBudget := 100, recommendedBudget := 120, impact := .high }

def C9recLow : BudgetRecommendation :=
  { category := "transport", currentBudget := 70, recommendedBudget := 70, impact := .low }

/-- Closed instances of the frame theorem: single apply hits food and not
transport; bulk apply over one high and one low recommendation rewrites
food only. -/
theorem apply_recommendation_frame_witness :
    lookup0 (applyRecommendation C9bud C9recHigh) "food" = 120 ∧
    lookup0 (applyRecommendation C9bud C9recHigh) "transport" = lookup0 C9bud "transport" ∧
    lookup0 (applyAllRecommendations C9bud [C9recHigh, C9recLow]) "transport" =
      lookup0 C9bud "transport" ∧
    lookup0 (applyAllRecommendations C9bud [C9recHigh, C9recLow]) "food" = 120 :=
  ⟨apply_recommendation_frame.1 C9bud C9recHigh,
   apply_recommendation_frame.2.1 C9bud C9recHigh "transport" (by decide),
   apply_recommendation_frame.2.2.1 C9bud [C9recHigh, C9recLow] "transport"
     (by
       intro r hr himp
       rcases List.mem_cons.mp hr with rfl | hr2
       · decide
       · rcases List.mem_cons.mp hr2 with rfl | hr3
         · exact absurd himp (by decide)
         · cases hr3),
   apply_recommendation_frame.2.2.2 C9bud [C9recHigh, C9recLow] C9recHigh
     (by
       rw [show ([C9recHigh, C9recLow].map (·.category)) = ["food", "transport"] from rfl]
       decide)
     (List.mem_cons_self _ _) rfl⟩

/-! ### Claim C6: determinism of the gamification points -/

/-- Ten one-dollar food expenses in the current month. -/
def C6ex : List Expense :=
  (List.range 10).map (fun i =>
    { id := toString (i + 1), date := "2025-01-01", description := "x",
      category := "food", amount := 1 })

def C6bud : Budget := [("food", 100)]

lemma C6ex_len : C6ex.length = 10 := rfl

lemma C6ex_monthly : monthlyExpenses C6ex 2025 0 = C6ex := rfl

lemma C6ex_total : monthlyTotal C6ex 2025 0 = 10 := by
  simp only [monthlyTotal, C6ex_monthly]
  norm_num [C6ex, List.range, List.range.loop]

lemma C6bud_total : totalBudgetOf C6bud = 100 := by
  simp only [totalBudgetOf, C6bud]
  norm_num

lemma C6ex_cats : ((C6ex.map (·.category)).eraseDups).length = 1 := rfl

/-- first-expense (50), expense-tracker (100), budget-master (200) and
savings-champion (300) unlock on this input: 650 points. -/
lemma C6_earned : earnedPoints C6ex C6bud 0 2025 0 = 650 := by
  simp only [earnedPoints, enhancedAchievements, C6ex_len, C6ex_total, C6bud_total, C6ex_cats]
  norm_num [List.filter, savingsProgress]

/-- Claim C6 is false as stated: the recomputed total over this input is
650, but claiming the 200-point reward drops the displayed total to 450
with the expense list and budget map unchanged — the rewards handler
subtracts from the total, so the displayed points are not a function of
(expenses, budget) between recomputations. -/
theorem points_determinism_counterexample :
    (recomputePoints C6ex C6bud 0 2025 0 ⟨0, []⟩).totalPoints = 650 ∧
    (claimReward (recomputePoints C6ex C6bud 0 2025 0 ⟨0, []⟩) "category-unlock").totalPoints = 450 ∧
    ((450 : ℚ) ≠ 650) := by
  have hs0 : recomputePoints C6ex C6bud 0 2025 0 ⟨0, []⟩ =
      ⟨earnedPoints C6ex C6bud 0 2025 0, []⟩ := rfl
  have hfind : rewardsCatalog.find? (fun r => r.1 = "category-unlock") =
      some ("category-unlock", 200) := rfl
  refine ⟨by rw [hs0, C6_earned], ?_, by norm_num⟩
  rw [hs0, C6_earned]
  simp only [claimReward, hfind]
  rw [if_pos ⟨by norm_num, rfl⟩]
  norm_num

/-- Claim C6 as amended: the recomputation (the points effect) writes a
total that depends only on the expense list, budget map, streak and
month — it reads no prior state, so any two recomputations over equal
inputs agree and equal the sum of unlocked achievement points; but the
rewards-claim handler subtracts the claimed reward's cost from the
displayed total without touching expenses or budget, so between
recomputations the displayed total is not a function of the current
expense list and budget map. -/
theorem points_determinism_amended :
    (∀ (es : List Expense) (b : Budget) (streak y m : ℕ) (s s' : GamState),
      (recomputePoints es b streak y m s).totalPoints =
        (recomputePoints es b streak y m s').totalPoints) ∧
    (∀ (es : List Expense) (b : Budget) (streak y m : ℕ) (s : GamState),
      (recomputePoints es b streak y m s).totalPoints = earnedPoints es b streak y m) ∧
    (∀ (s : GamState) (rid : String) (cost : ℚ),
      rewardsCatalog.find? (fun r => r.1 = rid) = some (rid, cost) →
      cost ≤ s.totalPoints → s.unlockedRewards.contains rid = false →
      (claimReward s rid).totalPoints = s.totalPoints - cost) := by
  refine ⟨fun _ _ _ _ _ _ _ => rfl, fun _ _ _ _ _ _ => rfl, ?_⟩
  intro s rid cost hfind hcost hclaimed
  unfold claimReward
  rw [hfind]
  show (if cost ≤ s.totalPoints ∧ s.unlockedRewards.contains rid = false then
      ({ totalPoints := s.totalPoints - cost, unlockedRewards := s.unlockedRewards ++ [rid] }
        : GamState)
    else s).totalPoints = s.totalPoints - cost
  rw [if_pos ⟨hcost, hclaimed⟩]

/-- Closed instance of the amended C6 theorem: recomputation is
insensitive to the prior state, and claiming the 200-point reward from a
650-point state leaves 450. -/
theorem points_determinism_amended_witness :
    (recomputePoints C6ex C6bud 0 2025 0 ⟨0, []⟩).totalPoints =
      (recomputePoints C6ex C6bud 0 2025 0 ⟨123, ["category-unlock"]⟩).totalPoints ∧
    (claimReward ⟨650, []⟩ "category-unlock").totalPoints = 650 - 200 :=
  ⟨points_determinism_amended.1 C6ex C6bud 0 2025 0 ⟨0, []⟩ ⟨123, ["category-unlock"]⟩,
   points_determinism_amended.2.2 ⟨650, []⟩ "category-unlock" 200 rfl (by norm_num) rfl⟩

/-! ### Claim C7: form submission validation -/

lemma decValue_nonneg (ip fp : List Char) (k : ℤ) : 0 ≤ decValue ip fp k := by
  unfold decValue
  positivity

lemma parseDec_nonneg (cs : List Char) (q : ℚ) (h : parseDec cs = some q) : 0 ≤ q := by
  unfold parseDec at h
  split at h
  · split_ifs at h
    rw [Option.some_inj] at h
    subst h
    exact decValue_nonneg _ _ _
  · split_ifs at h with h1 h2 h3
    · split at h
      · rw [Option.some_inj] at h
        subst h
        exact decValue_nonneg _ _ _
      · split_ifs at h
        obtain ⟨k, _, rfl⟩ := Option.map_eq_some'.mp h
        exact decValue_nonneg _ _ _
    · obtain ⟨k, _, rfl⟩ := Option.map_eq_some'.mp h
      exact decValue_nonneg _ _ _

lemma jsNumber_nonneg (s : String) (q : ℚ) (h : jsNumber s = some q)
    (hneg : hasNegSign s = false) : 0 ≤ q := by
  unfold jsNumber at h
  unfold hasNegSign at hneg
  split at h
  · rename_i heq
    rw [Option.some_inj] at h
    subst h
    norm_num
  · rename_i c rest heq
    rw [heq] at hneg
    simp only [List.headD_cons, decide_eq_false_iff_not] at hneg
    rw [if_neg hneg] at h
    by_cases hc : c = '+'
    · rw [if_pos hc] at h
      obtain ⟨p, hp, rfl⟩ := Option.map_eq_some'.mp h
      have := parseDec_nonneg _ _ hp
      linarith
    · rw [if_neg hc] at h
      exact parseDec_nonneg _ _ h

lemma handleSubmit_rejected (desc amt cat date nid : String) (cats : List CustomCategory)
    (es : List Expense) (h : strTrim desc = "" ∨ amt = "" ∨ jsNumber amt = none) :
    handleSubmit desc amt cat date nid cats es = (none, es) := by
  unfold handleSubmit
  split
  · rfl
  · rename_i q heq
    rcases h with h | h | h
    · rw [if_pos (Or.inl h)]
    · rw [if_pos (Or.inr h)]
    · rw [h] at heq
      cases heq

lemma handleSubmit_accepted (desc amt cat date nid : String) (cats : List CustomCategory)
    (es : List Expense) (q : ℚ) (hq : jsNumber amt = some q) (hd : strTrim desc ≠ "")
    (ha : amt ≠ "") :
    handleSubmit desc amt cat date nid cats es =
      (some { id := nid, date := date, description := strTrim desc,
              category := if cat = "" then smartCategorize desc cats else cat, amount := q },
       { id := nid, date := date, description := strTrim desc,
         category := if cat = "" then smartCategorize desc cats else cat,
         amount := q } :: es) := by
  unfold handleSubmit
  simp only [hq]
  rw [if_neg (by rintro (h | h); exacts [hd h, ha h])]

lemma decValue_five : decValue ['5'] [] 0 = 5 := by
  simp only [decValue, show digitsToNat ['5'] = 5 from rfl,
    show digitsToNat [] = 0 from rfl, List.length_nil]
  norm_num

lemma jsNumber_neg5 : jsNumber "-5" = some (-5) := by
  have h1 : jsNumber "-5" = (parseDec ['5']).map (fun q => -1 * q) := rfl
  have h2 : parseDec ['5'] = some (decValue ['5'] [] 0) := rfl
  rw [h1, h2, Option.map_some', decValue_five, Option.some_inj]
  norm_num

lemma jsNumber_five : jsNumber "5" = some 5 := by
  have h1 : jsNumber "5" = parseDec ['5'] := rfl
  have h2 : parseDec ['5'] = some (decValue ['5'] [] 0) := rfl
  rw [h1, h2, decValue_five]

lemma smartCat_coffee : smartCategorize "coffee" defaultCategories = "food" := by decide

/-- Claim C7 is false in its non-negativity part: the handler accepts the
numeric, non-blank amount string "-5" (the guard only checks trimmed
description, blank amount and NaN) and creates an expense record with the
negative amount -5.  The only protection against negatives is the min
attribute on the input element, not the submission handler. -/
theorem expense_submit_counterexample :
    handleSubmit "coffee" "-5" "" "2025-01-05" "9" defaultCategories [] =
      (some { id := "9", date := "2025-01-05", description := "coffee",
              category := "food", amount := -5 },
       [{ id := "9", date := "2025-01-05", description := "coffee",
          category := "food", amount := -5 }]) ∧
    ¬ (0 : ℚ) ≤ -5 := by
  constructor
  · rw [handleSubmit_accepted "coffee" "-5" "" "2025-01-05" "9" defaultCategories [] (-5)
      jsNumber_neg5 (by decide) (by decide)]
    rw [show strTrim "coffee" = "coffee" from by decide]
    rw [if_pos rfl, smartCat_coffee]
  · norm_num

/-- Claim C7 as amended: a submission with empty or whitespace-only
description, blank amount, or an amount that does not parse as a number,
is rejected with no change to the expense list; otherwise the record
built from the trimmed description, the selected or keyword-derived
category and the parsed amount is prepended; the amount is non-negative
whenever the amount string has no leading minus sign (in particular for
everything the voice path or a non-negative typed value produces), but
the handler itself performs no non-negativity check. -/
theorem expense_submit_amended :
    (∀ (desc amt cat date nid : String) (cats : List CustomCategory) (es : List Expense),
      (strTrim desc = "" ∨ amt = "" ∨ jsNumber amt = none) →
      handleSubmit desc amt cat date nid cats es = (none, es)) ∧
    (∀ (desc amt cat date nid : String) (cats : List CustomCategory) (es : List Expense) (q : ℚ),
      jsNumber amt = some q → strTrim desc ≠ "" → amt ≠ "" →
      handleSubmit desc amt cat date nid cats es =
        (some { id := nid, date := date, description := strTrim desc,
                category := if cat = "" then smartCategorize desc cats else cat, amount := q },
         { id := nid, date := date, description := strTrim desc,
           category := if cat = "" then smartCategorize desc cats else cat,
           amount := q } :: es)) ∧
    (∀ (amt : String) (q : ℚ), jsNumber amt = some q → hasNegSign amt = false → 0 ≤ q) := by
  refine ⟨?_, ?_, ?_⟩
  · intro desc amt cat date nid cats es h
    exact handleSubmit_rejected desc amt cat date nid cats es h
  · intro desc amt cat date nid cats es q hq hd ha
    exact handleSubmit_accepted desc amt cat date nid cats es q hq hd ha
  · intro amt q hq hneg
    exact jsNumber_nonneg amt q hq hneg

/-- Closed instances of the amended C7 theorem: a whitespace-only
description is rejected without touching the list; a well-formed
submission prepends the record with the parsed amount; and the parsed
value of the sign-free string "5" is non-negative. -/
theorem expense_submit_amended_witness :
    handleSubmit "   " "5" "" "2025-01-05" "1" defaultCategories [] = (none, []) ∧
    handleSubmit "tea" "5" "" "2025-01-05" "1" defaultCategories [] =
      (some { id := "1", date := "2025-01-05", description := "tea",
              category := "others", amount := 5 },
       [{ id := "1", date := "2025-01-05", description := "tea",
          category := "others", amount := 5 }]) ∧
    (0 : ℚ) ≤ 5 :=
  ⟨expense_submit_amended.1 "   " "5" "" "2025-01-05" "1" defaultCategories []
     (Or.inl (by decide)),
   (expense_submit_amended.2.1 "tea" "5" "" "2025-01-05" "1" defaultCategories [] 5
     jsNumber_five (by decide) (by decide)).trans
     (by rw [show strTrim "tea" = "tea" from by decide, if_pos rfl,
           show smartCategorize "tea" defaultCategories = "others" from by decide]),
   expense_submit_amended.2.2 "5" 5 jsNumber_five (by decide)⟩

/-! ### Claim C8: month-over-month percent change -/

/-- Claim C8 holds: the change is the raw formula whenever the
previous-month total is positive, and the division by zero is
special-cased to 0. -/
theorem spending_change_spec :
    (∀ (es : List Expense) (ck lk : String), 0 < monthKeyTotal es lk →
      spendingChange es ck lk =
        (monthKeyTotal es ck - monthKeyTotal es lk) / monthKeyTotal es lk * 100) ∧
    (∀ (es : List Expense) (ck lk : String), monthKeyTotal es lk = 0 →
      spendingChange es ck lk = 0) := by
  constructor
  · intro es ck lk h
    rw [spendingChange, if_pos h]
  · intro es ck lk h
    rw [spendingChange, if_neg (by rw [h]; exact lt_irrefl 0)]

/-- Concrete input for the spending-change witness: 100 this month, 50
last month, nothing in November. -/
def C8ex : List Expense :=
  [{ id := "1", date := "2025-01-05", description := "a", category := "food", amount := 100 },
   { id := "2", date := "2024-12-03", description := "b", category := "food", amount := 50 }]

lemma C8_lk : monthKeyTotal C8ex "2024-12" = 50 := by
  have h : C8ex.filter (fun e => strStartsWith e.date "2024-12") =
      [{ id := "2", date := "2024-12-03", description := "b", category := "food", amount := 50 }] := rfl
  simp only [monthKeyTotal, h]
  norm_num

lemma C8_ck : monthKeyTotal C8ex "2025-01" = 100 := by
  have h : C8ex.filter (fun e => strStartsWith e.date "2025-01") =
      [{ id := "1", date := "2025-01-05", description := "a", category := "food", amount := 100 }] := rfl
  simp only [monthKeyTotal, h]
  norm_num

lemma C8_zero : monthKeyTotal C8ex "2024-11" = 0 := rfl

/-- Closed instances of the C8 theorem: (100 - 50) / 50 * 100 = 100
percent month over month, and a zero previous month gives 0. -/
theorem spending_change_spec_witness :
    0 < monthKeyTotal C8ex "2024-12" ∧
    spendingChange C8ex "2025-01" "2024-12" = 100 ∧
    monthKeyTotal C8ex "2024-11" = 0 ∧
    spendingChange C8ex "2025-01" "2024-11" = 0 :=
  ⟨by rw [C8_lk]; norm_num,
   (spending_change_spec.1 C8ex "2025-01" "2024-12" (by rw [C8_lk]; norm_num)).trans
     (by rw [C8_ck, C8_lk]; norm_num),
   C8_zero,
   spending_change_spec.2 C8ex "2025-01" "2024-11" C8_zero⟩

/-! ### Claim C10: CSV export shape -/

/-- Claim C10 holds: the export is the joined header line followed by one
comma-joined row per filtered expense with the description wrapped in
double quotes, and with zero expenses it is exactly the header line. -/
theorem csv_export_spec :
    csvContent [] = "Date,Description,Category,Amount" ∧
    (∀ es : List Expense, csvContent es =
      String.intercalate "\n" ("Date,Description,Category,Amount" :: es.map csvRow)) ∧
    (∀ e : Expense, csvRow e =
      e.date ++ "," ++ ("\"" ++ e.description ++ "\"") ++ "," ++ e.category ++ "," ++
        toFixed2 e.amount) := by
  refine ⟨rfl, ?_, ?_⟩
  · intro es
    rw [csvContent, show String.intercalate "," ["Date", "Description", "Category", "Amount"] =
      "Date,Description,Category,Amount" from rfl]
  · intro e
    rw [csvRow]
    simp [String.intercalate, String.intercalate.go, String.append_assoc]

end StudentFinance








